import Mathlib

/-
Verification of the setup-assistant script (src/init.py): a shallow
embedding of its command runner, the environment-creation and
dependency-installation flows, and the interactive menu dispatch.

Modelling choices:
- A child-process invocation is recorded as a `Spawn` (the token list
  together with the keyword options of the single `subprocess.run` call:
  check=True, text=True, capture_output=True, timeout=120).
- The outside world is an `Env`: the platform flag (sys.platform ==
  "win32"), the path of the running interpreter (sys.executable), and an
  oracle `run` mapping a command and the current filesystem to the
  outcome of the child process (one constructor per handled exception
  class) and the filesystem after the process ran.
- The filesystem is read through `FS` (os.path.isdir / os.path.exists).
- Console output is a list of `Msg` tags, one per print statement of the
  source, in program order; the two message strings each caller hands to
  `ejecutar_comando` are carried through unchanged.
- Each Python function becomes a Lean function threading the filesystem
  and accumulating a `Trace` (spawned processes and printed messages).
  `install_requirements` returns no boolean, as in the source.
-/

namespace SetupAssistant

/-- Outcome of one `subprocess.run` call, one constructor per branch of
the try/except in `ejecutar_comando`: normal zero exit, CalledProcessError
(non-zero exit, captured stderr text), FileNotFoundError, TimeoutExpired,
or any other exception with its text. -/
inductive Outcome where
  | exitOk : Outcome
  | nonZeroExit (stderr : String) : Outcome
  | notFoundExc : Outcome
  | timeoutExc : Outcome
  | otherExc (msg : String) : Outcome
deriving DecidableEq, Repr

/-- One print statement of the source, as a tag carrying the data the
source interpolates into the message. -/
inductive Msg where
  | executing (cmd : List String) : Msg
  | okMsg (m : String) : Msg
  | errMsg (m : String) : Msg
  | errDetails (s : String) : Msg
  | errNotFound (cmd : List String) : Msg
  | errTimeout (cmd : List String) : Msg
  | errUnexpected (m : String) : Msg
  | venvAlreadyExists : Msg
  | venvValid : Msg
  | venvInvalid : Msg
  | updatingPipSetuptools : Msg
  | venvMissingForInstall : Msg
  | venvMissingForPipTools : Msg
  | ensuringPipTools : Msg
  | attemptingPipTools : Msg
  | pipToolsStop : Msg
  | warnPipCompileFallback : Msg
  | stepCompilingHeader : Msg
  | stepInstallingHeader : Msg
  | reqTxtNotGenerated : Msg
  | menuHeader : Msg
  | farewell : Msg
  | invalidOption : Msg
deriving DecidableEq, Repr

/-- One child-process invocation: the command token list and the options
of the `subprocess.run` call in `ejecutar_comando`. -/
structure Spawn where
  cmd : List String
  check : Bool
  text : Bool
  capture_output : Bool
  timeout : Nat
deriving DecidableEq, Repr

/-- Observable effects of a run: spawned processes and printed messages,
each in program order. -/
structure Trace where
  spawned : List Spawn
  prints : List Msg
deriving DecidableEq, Repr

/-- Concatenation of traces (sequential composition). -/
def Trace.app (a b : Trace) : Trace :=
  ⟨a.spawned ++ b.spawned, a.prints ++ b.prints⟩

/-- The filesystem as the script reads it: `os.path.isdir` and
`os.path.exists`. -/
structure FS where
  isDir : String → Bool
  pathExists : String → Bool

/-- The outside world: platform flag (`sys.platform == "win32"`),
`sys.executable`, and the oracle giving each child process its outcome
and the filesystem it leaves behind. -/
structure Env where
  isWin : Bool
  sys_executable : String
  run : List String → FS → Outcome × FS

/-- `VENV_DIR = ".venv"`. -/
def VENV_DIR : String := ".venv"

/-- Path-separator test: `os.path` splits on both slash kinds on
Windows and only on the forward slash elsewhere. -/
def sepChar (isWin : Bool) (c : Char) : Bool :=
  if isWin then c = '\\' || c = '/' else c = '/'

/-- `os.path.join a b` for the one-level joins the script performs. -/
def os_path_join (isWin : Bool) (a b : String) : String :=
  a ++ (if isWin then "\\" else "/") ++ b

/-- `os.path.dirname`: the path with its last component and the
separator before it removed. -/
def os_path_dirname (isWin : Bool) (p : String) : String :=
  String.mk ((((p.toList.reverse).dropWhile (fun c => !(sepChar isWin c))).drop 1).reverse)

/-- `obtener_python_venv`: the interpreter path inside the venv,
`.venv/Scripts/python.exe` on Windows and `.venv/bin/python` elsewhere. -/
def obtener_python_venv (isWin : Bool) : String :=
  if isWin then os_path_join isWin (os_path_join isWin VENV_DIR "Scripts") "python.exe"
  else os_path_join isWin (os_path_join isWin VENV_DIR "bin") "python"

/-- `obtener_pip_venv`: the base command for pip inside the venv,
`[venv_python, -m, pip]`. -/
def obtener_pip_venv (isWin : Bool) : List String :=
  [obtener_python_venv isWin, "-m", "pip"]

/-- Python's `str.strip()`: the string with leading and trailing
whitespace removed. -/
def pyStrip (s : String) : String :=
  String.mk (((s.toList.dropWhile Char.isWhitespace).reverse.dropWhile
    Char.isWhitespace).reverse)

/-- `ejecutar_comando`: run the command as a child process
(check=True, text=True, capture_output=True, timeout=120), print the
outcome, and return the success boolean. -/
def ejecutar_comando (env : Env) (comando : List String)
    (success_message error_message : String) (fs : FS) : Bool × FS × Trace :=
  let sp : Spawn := ⟨comando, true, true, true, 120⟩
  let r := env.run comando fs
  match r.1 with
  | Outcome.exitOk =>
      (true, r.2, ⟨[sp], [Msg.executing comando, Msg.okMsg success_message]⟩)
  | Outcome.nonZeroExit stderr =>
      (false, r.2, ⟨[sp], [Msg.executing comando, Msg.errMsg error_message] ++
        (if stderr ≠ "" then [Msg.errDetails (pyStrip stderr)] else [])⟩)
  | Outcome.notFoundExc =>
      (false, r.2, ⟨[sp], [Msg.executing comando, Msg.errNotFound comando]⟩)
  | Outcome.timeoutExc =>
      (false, r.2, ⟨[sp], [Msg.executing comando, Msg.errTimeout comando]⟩)
  | Outcome.otherExc m =>
      (false, r.2, ⟨[sp], [Msg.executing comando, Msg.errUnexpected m]⟩)

/-- Success message of the venv-creation command. -/
def msg_venv_created : String := "Virtual environment .venv created successfully."

/-- Error message of the venv-creation command. -/
def msg_venv_not_created : String := "Could not create the virtual environment .venv."

/-- Success message of the pip/setuptools upgrade command. -/
def msg_pip_updated : String := "Pip and setuptools updated."

/-- Error message of the pip/setuptools upgrade command. -/
def msg_pip_not_updated : String := "Could not update pip/setuptools."

/-- Success message of the pip-tools installation command. -/
def msg_piptools_ok : String := "pip-tools (which includes pip-compile) has been installed INSIDE .venv."

/-- Error message of the pip-tools installation command. -/
def msg_piptools_fail : String := "Could not install pip-tools inside .venv."

/-- Success message of the compile command. -/
def msg_compile_ok : String := "requirements.txt compiled/updated successfully INSIDE .venv."

/-- Error message of the compile command. -/
def msg_compile_fail : String := "Could not compile requirements.in. Ensure requirements.in exists."

/-- Success message of the install command. -/
def msg_install_ok : String := "All dependencies installed successfully INSIDE .venv."

/-- Error message of the install command. -/
def msg_install_fail : String := "Could not install packages from requirements.txt."

/-- `create_virtual_environment`: short-circuit when the directory
exists (validity check only, no process), otherwise create the venv and,
on success, best-effort upgrade pip and setuptools inside it. -/
def create_virtual_environment (env : Env) (fs : FS) : Bool × FS × Trace :=
  if fs.isDir VENV_DIR then
    if fs.pathExists (obtener_python_venv env.isWin) then
      (true, fs, ⟨[], [Msg.venvAlreadyExists, Msg.venvValid]⟩)
    else
      (false, fs, ⟨[], [Msg.venvAlreadyExists, Msg.venvInvalid]⟩)
  else
    let command := [env.sys_executable, "-m", "venv", VENV_DIR]
    let r1 := ejecutar_comando env command msg_venv_created msg_venv_not_created fs
    if r1.1 then
      let update_command := obtener_pip_venv env.isWin ++ ["install", "--upgrade", "pip", "setuptools"]
      let r2 := ejecutar_comando env update_command msg_pip_updated msg_pip_not_updated r1.2.1
      (true, r2.2.1, (r1.2.2.app ⟨[], [Msg.updatingPipSetuptools]⟩).app r2.2.2)
    else
      (false, r1.2.1, r1.2.2)

/-- `verify_and_install_pip_compile`: require the venv directory, then
install pip-tools inside it with the venv pip. -/
def verify_and_install_pip_compile (env : Env) (fs : FS) : Bool × FS × Trace :=
  if !(fs.isDir VENV_DIR) then
    (false, fs, ⟨[], [Msg.venvMissingForPipTools]⟩)
  else
    let install_command := obtener_pip_venv env.isWin ++ ["install", "pip-tools"]
    let r1 := ejecutar_comando env install_command msg_piptools_ok msg_piptools_fail fs
    if r1.1 then
      (true, r1.2.1, Trace.app ⟨[], [Msg.ensuringPipTools, Msg.attemptingPipTools]⟩ r1.2.2)
    else
      (false, r1.2.1,
        (Trace.app ⟨[], [Msg.ensuringPipTools, Msg.attemptingPipTools]⟩ r1.2.2).app
          ⟨[], [Msg.pipToolsStop]⟩)

/-- The path at which `install_requirements` looks for the pip-compile
executable: dirname of the venv interpreter joined with "pip-compile",
plus ".exe" on Windows. -/
def pip_compile_venv_path (isWin : Bool) : String :=
  let base := os_path_join isWin (os_path_dirname isWin (obtener_python_venv isWin)) "pip-compile"
  if isWin then base ++ ".exe" else base

/-- The compile command `install_requirements` builds: the pip-compile
executable applied to requirements.in when that executable exists,
otherwise the venv interpreter running piptools as a module. -/
def compile_command_of (env : Env) (fs : FS) : List String :=
  if !(fs.pathExists (pip_compile_venv_path env.isWin)) then
    [obtener_python_venv env.isWin, "-m", "piptools", "compile", "requirements.in"]
  else
    [pip_compile_venv_path env.isWin, "requirements.in"]

/-- The install command of step B: `[venv_python, -m, pip, install, -r,
requirements.txt]`. -/
def install_command_of (env : Env) : List String :=
  obtener_pip_venv env.isWin ++ ["install", "-r", "requirements.txt"]

/-- `install_requirements`: require the venv directory, ensure
pip-tools, compile requirements.in, and, when requirements.txt exists
afterwards, install from it; the Python function returns None. -/
def install_requirements (env : Env) (fs : FS) : FS × Trace :=
  if !(fs.isDir VENV_DIR) then
    (fs, ⟨[], [Msg.venvMissingForInstall]⟩)
  else
    let r1 := verify_and_install_pip_compile env fs
    if !r1.1 then
      (r1.2.1, r1.2.2)
    else
      let compile_warn : List Msg :=
        if !(r1.2.1.pathExists (pip_compile_venv_path env.isWin)) then
          [Msg.warnPipCompileFallback]
        else []
      let r2 := ejecutar_comando env (compile_command_of env r1.2.1)
        msg_compile_ok msg_compile_fail r1.2.1
      let trA := (r1.2.2.app ⟨[], compile_warn ++ [Msg.stepCompilingHeader]⟩).app r2.2.2
      if !r2.1 then
        (r2.2.1, trA)
      else
        if r2.2.1.pathExists "requirements.txt" then
          let r3 := ejecutar_comando env (install_command_of env)
            msg_install_ok msg_install_fail r2.2.1
          (r3.2.1, (trA.app ⟨[], [Msg.stepInstallingHeader]⟩).app r3.2.2)
        else
          (r2.2.1, trA.app ⟨[], [Msg.stepInstallingHeader, Msg.reqTxtNotGenerated]⟩)

/-- Result of one iteration of the menu loop: either the loop continues
with the filesystem the chosen flow left behind, or the process exits
with the given status. -/
inductive MenuStep where
  | looped (fs : FS) (t : Trace) : MenuStep
  | exited (code : Nat) (t : Trace) : MenuStep

/-- One iteration of `show_menu`: print the menu, read a line, strip it,
and dispatch on it; option 3 exits with status 0, anything other than
1, 2, 3 prints the invalid-option error and re-prompts. -/
def show_menu_iteration (env : Env) (fs : FS) (input : String) : MenuStep :=
  let option := pyStrip input
  if option = "1" then
    let r := create_virtual_environment env fs
    MenuStep.looped r.2.1 (Trace.app ⟨[], [Msg.menuHeader]⟩ r.2.2)
  else if option = "2" then
    let r := install_requirements env fs
    MenuStep.looped r.1 (Trace.app ⟨[], [Msg.menuHeader]⟩ r.2)
  else if option = "3" then
    MenuStep.exited 0 ⟨[], [Msg.menuHeader, Msg.farewell]⟩
  else
    MenuStep.looped fs ⟨[], [Msg.menuHeader, Msg.invalidOption]⟩

/- Concrete worlds used by counterexamples and witnesses. -/

/-- A filesystem where the venv directory exists but nothing else does
(in particular the venv interpreter is absent). -/
def fsDirOnly : FS := ⟨fun d => d == VENV_DIR, fun _ => false⟩

/-- A filesystem where the venv directory and every queried path exist. -/
def fsValidVenv : FS := ⟨fun d => d == VENV_DIR, fun _ => true⟩

/-- An empty filesystem. -/
def fsEmpty : FS := ⟨fun _ => false, fun _ => false⟩

/-- A world where every child process fails with FileNotFoundError. -/
def envNF : Env := ⟨false, "/usr/bin/python3", fun _ fs => (Outcome.notFoundExc, fs)⟩

/-- A world where every child process exits with code zero and leaves
the filesystem unchanged. -/
def envAllOk : Env := ⟨false, "/usr/bin/python3", fun _ fs => (Outcome.exitOk, fs)⟩

/-- A world where exactly the commands mentioning the pip-tools package
succeed, so the compile step fails. -/
def envPipToolsOnly : Env :=
  ⟨false, "/usr/bin/python3",
   fun cmd fs => (if "pip-tools" ∈ cmd then Outcome.exitOk else Outcome.nonZeroExit "boom", fs)⟩

/-- A world where exactly the venv-creation command (the one whose
tokens mention the venv module) succeeds, so the toolchain upgrade
fails. -/
def envVenvOnly : Env :=
  ⟨false, "/usr/bin/python3",
   fun cmd fs => (if "venv" ∈ cmd then Outcome.exitOk else Outcome.nonZeroExit "upgrade failed", fs)⟩

/-- C1: for every command handed to the command runner, exactly one
child process is spawned, with output captured, check=True, text mode
and a hard timeout of 120; the returned boolean is true exactly when the
process exits with code zero; and the printed messages classify the
outcome: success message on zero exit, failure message plus the stripped
captured stderr when non-empty on non-zero exit, a distinct not-found
message, a distinct timeout message, or the unexpected-exception message
with the exception text. -/
theorem C1_command_runner (env : Env) (comando : List String)
    (smsg emsg : String) (fs : FS) :
    (ejecutar_comando env comando smsg emsg fs).2.2.spawned =
      [Spawn.mk comando true true true 120] ∧
    ((ejecutar_comando env comando smsg emsg fs).1 = true ↔
      (env.run comando fs).1 = Outcome.exitOk) ∧
    (ejecutar_comando env comando smsg emsg fs).2.1 = (env.run comando fs).2 ∧
    (ejecutar_comando env comando smsg emsg fs).2.2.prints =
      Msg.executing comando ::
        (match (env.run comando fs).1 with
         | Outcome.exitOk => [Msg.okMsg smsg]
         | Outcome.nonZeroExit stderr =>
             Msg.errMsg emsg :: (if stderr ≠ "" then [Msg.errDetails (pyStrip stderr)] else [])
         | Outcome.notFoundExc => [Msg.errNotFound comando]
         | Outcome.timeoutExc => [Msg.errTimeout comando]
         | Outcome.otherExc m => [Msg.errUnexpected m]) := by
  rcases h : env.run comando fs with ⟨o, fs1⟩
  cases o <;> simp [ejecutar_comando, h]

/-- C3: environment creation is idempotent: whenever the venv directory
already exists the flow spawns no child process and leaves the
filesystem untouched; with the interpreter present it prints the
already-exists and valid messages and returns true, and with the
interpreter absent it prints the already-exists and invalid
(delete-and-try-again) messages and returns false. -/
theorem C3_creation_idempotent (env : Env) (fs : FS)
    (h : fs.isDir VENV_DIR = true) :
    (create_virtual_environment env fs).2.2.spawned = [] ∧
    (create_virtual_environment env fs).2.1 = fs ∧
    (fs.pathExists (obtener_python_venv env.isWin) = true →
      (create_virtual_environment env fs).1 = true ∧
      (create_virtual_environment env fs).2.2.prints =
        [Msg.venvAlreadyExists, Msg.venvValid]) ∧
    (fs.pathExists (obtener_python_venv env.isWin) = false →
      (create_virtual_environment env fs).1 = false ∧
      (create_virtual_environment env fs).2.2.prints =
        [Msg.venvAlreadyExists, Msg.venvInvalid]) := by
  cases hp : fs.pathExists (obtener_python_venv env.isWin) <;>
    simp [create_virtual_environment, h, hp]

/-- C3 witness: in a world where the venv directory and its interpreter
exist, a (second) invocation of the creation flow returns true and
spawns nothing. -/
theorem C3_creation_idempotent_witness :
    (create_virtual_environment envNF fsValidVenv).1 = true ∧
    (create_virtual_environment envNF fsValidVenv).2.2.spawned = [] :=
  ⟨((C3_creation_idempotent envNF fsValidVenv (by decide)).2.2.1 (by decide)).1,
   (C3_creation_idempotent envNF fsValidVenv (by decide)).1⟩

/-- C4: whenever the venv directory does not exist, the
dependency-installation flow prints only the guidance message and
returns immediately: no child process is spawned and the filesystem is
returned unchanged. -/
theorem C4_install_aborts_without_venv (env : Env) (fs : FS)
    (h : fs.isDir VENV_DIR = false) :
    install_requirements env fs =
      (fs, ⟨[], [Msg.venvMissingForInstall]⟩) := by
  simp [install_requirements, h]

/-- C4 witness: on an empty filesystem the flow returns at once with the
guidance message, spawning nothing and touching nothing. -/
theorem C4_install_aborts_without_venv_witness :
    install_requirements envNF fsEmpty =
      (fsEmpty, ⟨[], [Msg.venvMissingForInstall]⟩) :=
  C4_install_aborts_without_venv envNF fsEmpty (by decide)

/-- C2 counterexample: in a world where the venv directory exists but
the interpreter executable is absent from it, the
dependency-installation flow still spawns a child process (the pip-tools
installation attempt), so a dependent step does run while the
interpreter executable is absent from an existing environment
directory. -/
theorem C2_counterexample :
    fsDirOnly.isDir VENV_DIR = true ∧
    fsDirOnly.pathExists (obtener_python_venv envNF.isWin) = false ∧
    (install_requirements envNF fsDirOnly).2.spawned ≠ [] := by
  refine ⟨by decide, by decide, ?_⟩
  decide

/-- C2 (amended): whenever the dependency-installation flow spawns any
child process, the environment directory exists (the only prerequisite
the flow checks); the presence of the interpreter executable inside it
is not verified, so a dependent step can be spawned while the
interpreter is absent. -/
theorem C2_spawn_implies_venv_dir (env : Env) (fs : FS)
    (h : (install_requirements env fs).2.spawned ≠ []) :
    fs.isDir VENV_DIR = true := by
  cases hd : fs.isDir VENV_DIR with
  | true => rfl
  | false => simp [install_requirements, hd] at h

/-- C2 witness: the amended theorem applied to a world whose
installation flow does spawn a process. -/
theorem C2_spawn_implies_venv_dir_witness :
    fsDirOnly.isDir VENV_DIR = true :=
  C2_spawn_implies_venv_dir envNF fsDirOnly (by decide)

/-- C7: when the venv directory is absent, the creation flow spawns the
creation command; if that command succeeds, the flow also spawns exactly
one further command, the pip/setuptools upgrade inside the new
environment, and returns true whatever that upgrade's outcome; if the
creation command fails, the upgrade is never spawned and the flow
returns false. -/
theorem C7_upgrade_best_effort (env : Env) (fs : FS)
    (h : fs.isDir VENV_DIR = false) :
    ((ejecutar_comando env [env.sys_executable, "-m", "venv", VENV_DIR]
        msg_venv_created msg_venv_not_created fs).1 = true →
      (create_virtual_environment env fs).1 = true ∧
      (create_virtual_environment env fs).2.2.spawned.map Spawn.cmd =
        [[env.sys_executable, "-m", "venv", VENV_DIR],
         obtener_pip_venv env.isWin ++ ["install", "--upgrade", "pip", "setuptools"]]) ∧
    ((ejecutar_comando env [env.sys_executable, "-m", "venv", VENV_DIR]
        msg_venv_created msg_venv_not_created fs).1 = false →
      (create_virtual_environment env fs).1 = false ∧
      (create_virtual_environment env fs).2.2.spawned.map Spawn.cmd =
        [[env.sys_executable, "-m", "venv", VENV_DIR]]) := by
  rcases ho : env.run [env.sys_executable, "-m", "venv", VENV_DIR] fs with ⟨o, fs1⟩
  cases o with
  | exitOk =>
      rcases ho2 : env.run
          (obtener_pip_venv env.isWin ++ ["install", "--upgrade", "pip", "setuptools"]) fs1
        with ⟨o2, fs2⟩
      cases o2 <;>
        simp [create_virtual_environment, ejecutar_comando, h, ho, ho2, Trace.app]
  | nonZeroExit stderr =>
      simp [create_virtual_environment, ejecutar_comando, h, ho, Trace.app]
  | notFoundExc =>
      simp [create_virtual_environment, ejecutar_comando, h, ho, Trace.app]
  | timeoutExc =>
      simp [create_virtual_environment, ejecutar_comando, h, ho, Trace.app]
  | otherExc m =>
      simp [create_virtual_environment, ejecutar_comando, h, ho, Trace.app]

/-- C7 witness: in a world where the creation command succeeds but the
upgrade command fails, the flow still returns true. -/
theorem C7_upgrade_best_effort_witness :
    (ejecutar_comando envVenvOnly [envVenvOnly.sys_executable, "-m", "venv", VENV_DIR]
        msg_venv_created msg_venv_not_created fsEmpty).1 = true ∧
    (create_virtual_environment envVenvOnly fsEmpty).1 = true :=
  ⟨by decide, ((C7_upgrade_best_effort envVenvOnly fsEmpty (by decide)).1 (by decide)).1⟩

/- Helper lemmas shared by the theorems about `install_requirements`. -/

/-- The command runner spawns exactly its command, with check=True,
text=True, capture_output=True and timeout 120, whatever the outcome. -/
theorem ejecutar_spawned (env : Env) (c : List String) (s e : String) (fs : FS) :
    (ejecutar_comando env c s e fs).2.2.spawned = [Spawn.mk c true true true 120] := by
  rcases ho : env.run c fs with ⟨o, fs1⟩
  cases o <;> simp [ejecutar_comando, ho]

/-- When `verify_and_install_pip_compile` returns true, the venv
directory existed. -/
theorem verify_ok_dir (env : Env) (fs : FS)
    (h1 : (verify_and_install_pip_compile env fs).1 = true) :
    fs.isDir VENV_DIR = true := by
  cases hd : fs.isDir VENV_DIR
  · simp [verify_and_install_pip_compile, hd] at h1
  · rfl

/-- `verify_and_install_pip_compile` spawns nothing or exactly the
pip-tools installation command. -/
theorem verify_spawned_cases (env : Env) (fs : FS) :
    (verify_and_install_pip_compile env fs).2.2.spawned = [] ∨
    (verify_and_install_pip_compile env fs).2.2.spawned =
      [Spawn.mk (obtener_pip_venv env.isWin ++ ["install", "pip-tools"]) true true true 120] := by
  cases hd : fs.isDir VENV_DIR
  · left
    simp [verify_and_install_pip_compile, hd]
  · right
    rcases ho : env.run (obtener_pip_venv env.isWin ++ ["install", "pip-tools"]) fs with ⟨o, fs1⟩
    cases o <;> simp [verify_and_install_pip_compile, ejecutar_comando, hd, ho, Trace.app]

/-- When the compile step fails, `install_requirements` spawned exactly
the pip-tools stage processes followed by the compile process. -/
theorem install_requirements_compile_fail (env : Env) (fs : FS)
    (hd : fs.isDir VENV_DIR = true)
    (h1 : (verify_and_install_pip_compile env fs).1 = true)
    (h2 : (ejecutar_comando env
            (compile_command_of env (verify_and_install_pip_compile env fs).2.1)
            msg_compile_ok msg_compile_fail (verify_and_install_pip_compile env fs).2.1).1 = false) :
    (install_requirements env fs).2.spawned =
      (verify_and_install_pip_compile env fs).2.2.spawned ++
        [Spawn.mk (compile_command_of env (verify_and_install_pip_compile env fs).2.1)
          true true true 120] := by
  simp [install_requirements, hd, h1, h2, Trace.app, ejecutar_spawned]

/-- When the compile step succeeds and requirements.txt exists
afterwards, `install_requirements` spawned the pip-tools stage
processes, the compile process and the install process, in order. -/
theorem install_requirements_ok_withlock (env : Env) (fs : FS)
    (hd : fs.isDir VENV_DIR = true)
    (h1 : (verify_and_install_pip_compile env fs).1 = true)
    (h2 : (ejecutar_comando env
            (compile_command_of env (verify_and_install_pip_compile env fs).2.1)
            msg_compile_ok msg_compile_fail (verify_and_install_pip_compile env fs).2.1).1 = true)
    (hl : (ejecutar_comando env
            (compile_command_of env (verify_and_install_pip_compile env fs).2.1)
            msg_compile_ok msg_compile_fail
            (verify_and_install_pip_compile env fs).2.1).2.1.pathExists "requirements.txt" = true) :
    (install_requirements env fs).2.spawned =
      (verify_and_install_pip_compile env fs).2.2.spawned ++
        [Spawn.mk (compile_command_of env (verify_and_install_pip_compile env fs).2.1)
          true true true 120,
         Spawn.mk (install_command_of env) true true true 120] := by
  simp [install_requirements, hd, h1, h2, hl, Trace.app, ejecutar_spawned]

/-- When the compile step succeeds but requirements.txt is absent
afterwards, `install_requirements` spawned only the pip-tools stage
processes and the compile process, and printed the hard-inconsistency
message. -/
theorem install_requirements_ok_nolock (env : Env) (fs : FS)
    (hd : fs.isDir VENV_DIR = true)
    (h1 : (verify_and_install_pip_compile env fs).1 = true)
    (h2 : (ejecutar_comando env
            (compile_command_of env (verify_and_install_pip_compile env fs).2.1)
            msg_compile_ok msg_compile_fail (verify_and_install_pip_compile env fs).2.1).1 = true)
    (hl : (ejecutar_comando env
            (compile_command_of env (verify_and_install_pip_compile env fs).2.1)
            msg_compile_ok msg_compile_fail
            (verify_and_install_pip_compile env fs).2.1).2.1.pathExists "requirements.txt" = false) :
    (install_requirements env fs).2.spawned =
      (verify_and_install_pip_compile env fs).2.2.spawned ++
        [Spawn.mk (compile_command_of env (verify_and_install_pip_compile env fs).2.1)
          true true true 120] ∧
    Msg.reqTxtNotGenerated ∈ (install_requirements env fs).2.prints := by
  constructor
  · simp [install_requirements, hd, h1, h2, hl, Trace.app, ejecutar_spawned]
  · simp [install_requirements, hd, h1, h2, hl, Trace.app]

/-- The install command differs from the pip-tools installation command
and from both shapes of the compile command. -/
theorem install_command_distinct (env : Env) (fs : FS) :
    install_command_of env ≠ obtener_pip_venv env.isWin ++ ["install", "pip-tools"] ∧
    install_command_of env ≠ compile_command_of env fs := by
  constructor
  · simp [install_command_of, obtener_pip_venv]
  · cases hp : fs.pathExists (pip_compile_venv_path env.isWin) <;>
      simp [install_command_of, obtener_pip_venv, compile_command_of, hp]

/-- The install command is not among the commands spawned by the
pip-tools stage followed by the compile step. -/
theorem install_not_in_first_stages (env : Env) (fs : FS) :
    install_command_of env ∉
      (((verify_and_install_pip_compile env fs).2.2.spawned ++
        [Spawn.mk (compile_command_of env (verify_and_install_pip_compile env fs).2.1)
          true true true 120]).map Spawn.cmd) := by
  rcases verify_spawned_cases env fs with hs | hs <;> rw [hs]
  · simpa using
      (install_command_distinct env (verify_and_install_pip_compile env fs).2.1).2
  · simpa using
      ⟨(install_command_distinct env (verify_and_install_pip_compile env fs).2.1).1,
       (install_command_distinct env (verify_and_install_pip_compile env fs).2.1).2⟩

/-- A filesystem where the venv directory exists and, of the queried
paths, exactly requirements.txt exists. -/
def fsReqTxt : FS := ⟨fun d => d == VENV_DIR, fun p => p == "requirements.txt"⟩

/-- C5: whenever the pip-tools stage succeeded but the lock-file
compilation step returns false, the package-installer command is never
spawned by that invocation of the dependency-installation flow. -/
theorem C5_no_install_after_failed_compile (env : Env) (fs : FS)
    (h1 : (verify_and_install_pip_compile env fs).1 = true)
    (h2 : (ejecutar_comando env
            (compile_command_of env (verify_and_install_pip_compile env fs).2.1)
            msg_compile_ok msg_compile_fail (verify_and_install_pip_compile env fs).2.1).1 = false) :
    install_command_of env ∉ ((install_requirements env fs).2.spawned.map Spawn.cmd) := by
  have hd := verify_ok_dir env fs h1
  rw [install_requirements_compile_fail env fs hd h1 h2]
  exact install_not_in_first_stages env fs

/-- C5 witness: a world where pip-tools installation succeeds, the
compile command fails, and the installer command is indeed never
spawned. -/
theorem C5_no_install_after_failed_compile_witness :
    (verify_and_install_pip_compile envPipToolsOnly fsDirOnly).1 = true ∧
    install_command_of envPipToolsOnly ∉
      ((install_requirements envPipToolsOnly fsDirOnly).2.spawned.map Spawn.cmd) :=
  ⟨by decide,
   C5_no_install_after_failed_compile envPipToolsOnly fsDirOnly (by decide) (by decide)⟩

/-- C6: after the compile step of the dependency-installation flow
succeeds, if requirements.txt exists on the filesystem the compile left
behind, the flow spawns the package-installer command against it as its
final process; if requirements.txt does not exist, the installer is
never spawned and the hard-inconsistency message is printed. -/
theorem C6_lock_file_gate (env : Env) (fs : FS)
    (h1 : (verify_and_install_pip_compile env fs).1 = true)
    (h2 : (ejecutar_comando env
            (compile_command_of env (verify_and_install_pip_compile env fs).2.1)
            msg_compile_ok msg_compile_fail (verify_and_install_pip_compile env fs).2.1).1 = true) :
    ((ejecutar_comando env
        (compile_command_of env (verify_and_install_pip_compile env fs).2.1)
        msg_compile_ok msg_compile_fail
        (verify_and_install_pip_compile env fs).2.1).2.1.pathExists "requirements.txt" = true →
      (install_requirements env fs).2.spawned.map Spawn.cmd =
        ((verify_and_install_pip_compile env fs).2.2.spawned.map Spawn.cmd) ++
          [compile_command_of env (verify_and_install_pip_compile env fs).2.1,
           install_command_of env]) ∧
    ((ejecutar_comando env
        (compile_command_of env (verify_and_install_pip_compile env fs).2.1)
        msg_compile_ok msg_compile_fail
        (verify_and_install_pip_compile env fs).2.1).2.1.pathExists "requirements.txt" = false →
      install_command_of env ∉ ((install_requirements env fs).2.spawned.map Spawn.cmd) ∧
      Msg.reqTxtNotGenerated ∈ (install_requirements env fs).2.prints) := by
  have hd := verify_ok_dir env fs h1
  constructor
  · intro hl
    rw [install_requirements_ok_withlock env fs hd h1 h2 hl]
    simp
  · intro hl
    obtain ⟨hsp, hpr⟩ := install_requirements_ok_nolock env fs hd h1 h2 hl
    refine ⟨?_, hpr⟩
    rw [hsp]
    exact install_not_in_first_stages env fs

/-- C6 witness: a world where every command succeeds and
requirements.txt exists after compilation; the installer command is the
final spawned process. -/
theorem C6_lock_file_gate_witness :
    (ejecutar_comando envAllOk
        (compile_command_of envAllOk (verify_and_install_pip_compile envAllOk fsReqTxt).2.1)
        msg_compile_ok msg_compile_fail
        (verify_and_install_pip_compile envAllOk fsReqTxt).2.1).2.1.pathExists
      "requirements.txt" = true ∧
    (install_requirements envAllOk fsReqTxt).2.spawned.map Spawn.cmd =
      ((verify_and_install_pip_compile envAllOk fsReqTxt).2.2.spawned.map Spawn.cmd) ++
        [compile_command_of envAllOk (verify_and_install_pip_compile envAllOk fsReqTxt).2.1,
         install_command_of envAllOk] :=
  ⟨by decide,
   (C6_lock_file_gate envAllOk fsReqTxt (by decide) (by decide)).1 (by decide)⟩

/-- C8: after the pip-tools stage, the compiler path is the join of the
venv executable directory (the dirname of the venv interpreter) with
"pip-compile", suffixed with ".exe" exactly on Windows; when a file
exists at that path the compile command is that executable applied to
requirements.in, and otherwise it is the venv interpreter invoking
piptools as a module on requirements.in, with the fallback warning
printed; in both cases that compile command is among the commands the
flow spawns. -/
theorem C8_compile_command_selection (env : Env) (fs : FS)
    (h1 : (verify_and_install_pip_compile env fs).1 = true) :
    (env.isWin = true →
      pip_compile_venv_path env.isWin =
        os_path_join env.isWin
          (os_path_dirname env.isWin (obtener_python_venv env.isWin)) "pip-compile" ++ ".exe") ∧
    (env.isWin = false →
      pip_compile_venv_path env.isWin =
        os_path_join env.isWin
          (os_path_dirname env.isWin (obtener_python_venv env.isWin)) "pip-compile") ∧
    ((verify_and_install_pip_compile env fs).2.1.pathExists
        (pip_compile_venv_path env.isWin) = true →
      compile_command_of env (verify_and_install_pip_compile env fs).2.1 =
        [pip_compile_venv_path env.isWin, "requirements.in"]) ∧
    ((verify_and_install_pip_compile env fs).2.1.pathExists
        (pip_compile_venv_path env.isWin) = false →
      compile_command_of env (verify_and_install_pip_compile env fs).2.1 =
        [obtener_python_venv env.isWin, "-m", "piptools", "compile", "requirements.in"] ∧
      Msg.warnPipCompileFallback ∈ (install_requirements env fs).2.prints) ∧
    compile_command_of env (verify_and_install_pip_compile env fs).2.1 ∈
      ((install_requirements env fs).2.spawned.map Spawn.cmd) := by
  have hd := verify_ok_dir env fs h1
  refine ⟨?_, ?_, ?_, ?_, ?_⟩
  · intro hw
    simp [pip_compile_venv_path, hw]
  · intro hw
    simp [pip_compile_venv_path, hw]
  · intro hp
    simp [compile_command_of, hp]
  · intro hp
    refine ⟨by simp [compile_command_of, hp], ?_⟩
    cases h2 : (ejecutar_comando env
        (compile_command_of env (verify_and_install_pip_compile env fs).2.1)
        msg_compile_ok msg_compile_fail (verify_and_install_pip_compile env fs).2.1).1
    · simp [install_requirements, hd, h1, h2, hp, Trace.app]
    · cases hl : (ejecutar_comando env
          (compile_command_of env (verify_and_install_pip_compile env fs).2.1)
          msg_compile_ok msg_compile_fail
          (verify_and_install_pip_compile env fs).2.1).2.1.pathExists "requirements.txt" <;>
        simp [install_requirements, hd, h1, h2, hp, hl, Trace.app]
  · cases h2 : (ejecutar_comando env
        (compile_command_of env (verify_and_install_pip_compile env fs).2.1)
        msg_compile_ok msg_compile_fail (verify_and_install_pip_compile env fs).2.1).1
    · rw [install_requirements_compile_fail env fs hd h1 h2]
      simp
    · cases hl : (ejecutar_comando env
          (compile_command_of env (verify_and_install_pip_compile env fs).2.1)
          msg_compile_ok msg_compile_fail
          (verify_and_install_pip_compile env fs).2.1).2.1.pathExists "requirements.txt"
      · rw [(install_requirements_ok_nolock env fs hd h1 h2 hl).1]
        simp
      · rw [install_requirements_ok_withlock env fs hd h1 h2 hl]
        simp

/-- C8 witness: in a world where the pip-tools stage succeeds and the
pip-compile executable is absent, the fallback module invocation is the
compile command, the warning is printed, and the command is spawned. -/
theorem C8_compile_command_selection_witness :
    (verify_and_install_pip_compile envAllOk fsDirOnly).2.1.pathExists
        (pip_compile_venv_path envAllOk.isWin) = false ∧
    compile_command_of envAllOk (verify_and_install_pip_compile envAllOk fsDirOnly).2.1 =
      [obtener_python_venv envAllOk.isWin, "-m", "piptools", "compile", "requirements.in"] ∧
    Msg.warnPipCompileFallback ∈ (install_requirements envAllOk fsDirOnly).2.prints :=
  ⟨by decide,
   (C8_compile_command_selection envAllOk fsDirOnly (by decide)).2.2.2.1 (by decide)⟩

/-- C9: each menu iteration strips the input line before dispatch;
stripped "1" runs environment creation and loops with its resulting
state, stripped "2" runs dependency installation likewise, stripped "3"
prints the farewell and exits the process with status 0, and every other
input prints the invalid-option error and re-prompts with the filesystem
unchanged and no process spawned. -/
theorem C9_menu_dispatch (env : Env) (fs : FS) (input : String) :
    (pyStrip input = "1" →
      show_menu_iteration env fs input =
        MenuStep.looped (create_virtual_environment env fs).2.1
          (Trace.app ⟨[], [Msg.menuHeader]⟩ (create_virtual_environment env fs).2.2)) ∧
    (pyStrip input = "2" →
      show_menu_iteration env fs input =
        MenuStep.looped (install_requirements env fs).1
          (Trace.app ⟨[], [Msg.menuHeader]⟩ (install_requirements env fs).2)) ∧
    (pyStrip input = "3" →
      show_menu_iteration env fs input =
        MenuStep.exited 0 ⟨[], [Msg.menuHeader, Msg.farewell]⟩) ∧
    (pyStrip input ≠ "1" → pyStrip input ≠ "2" → pyStrip input ≠ "3" →
      show_menu_iteration env fs input =
        MenuStep.looped fs ⟨[], [Msg.menuHeader, Msg.invalidOption]⟩) := by
  refine ⟨?_, ?_, ?_, ?_⟩
  · intro h
    simp [show_menu_iteration, h]
  · intro h
    simp [show_menu_iteration, h]
  · intro h
    simp [show_menu_iteration, h]
  · intro h1 h2 h3
    simp [show_menu_iteration, h1, h2, h3]

/-- C9 witness: the padded input line whose stripped form is "3" exits
with status 0 after the farewell message. -/
theorem C9_menu_dispatch_witness :
    pyStrip "  3 " = "3" ∧
    show_menu_iteration envAllOk fsEmpty "  3 " =
      MenuStep.exited 0 ⟨[], [Msg.menuHeader, Msg.farewell]⟩ :=
  ⟨by decide, (C9_menu_dispatch envAllOk fsEmpty "  3 ").2.2.1 (by decide)⟩

/-- Every process the creation flow spawns is the venv-creation command
or the pip/setuptools upgrade command. -/
theorem create_spawned_cmds_cases (env : Env) (fs : FS) :
    ∀ s ∈ (create_virtual_environment env fs).2.2.spawned,
      s.cmd = [env.sys_executable, "-m", "venv", VENV_DIR] ∨
      s.cmd = obtener_pip_venv env.isWin ++ ["install", "--upgrade", "pip", "setuptools"] := by
  intro s hs
  cases hd : fs.isDir VENV_DIR
  · rcases ho : env.run [env.sys_executable, "-m", "venv", VENV_DIR] fs with ⟨o, fs1⟩
    cases o with
    | exitOk =>
        rcases ho2 : env.run
            (obtener_pip_venv env.isWin ++ ["install", "--upgrade", "pip", "setuptools"]) fs1
          with ⟨o2, fs2⟩
        cases o2 <;>
          · simp [create_virtual_environment, ejecutar_comando, hd, ho, ho2, Trace.app] at hs
            rcases hs with hs | hs <;> simp [hs]
    | nonZeroExit stderr =>
        simp [create_virtual_environment, ejecutar_comando, hd, ho, Trace.app] at hs
        simp [hs]
    | notFoundExc =>
        simp [create_virtual_environment, ejecutar_comando, hd, ho, Trace.app] at hs
        simp [hs]
    | timeoutExc =>
        simp [create_virtual_environment, ejecutar_comando, hd, ho, Trace.app] at hs
        simp [hs]
    | otherExc m =>
        simp [create_virtual_environment, ejecutar_comando, hd, ho, Trace.app] at hs
        simp [hs]
  · cases hp : fs.pathExists (obtener_python_venv env.isWin) <;>
      simp [create_virtual_environment, hd, hp] at hs

/-- Every process the dependency-installation flow spawns is the
pip-tools installation command, the compile command, or the
requirements install command. -/
theorem install_spawned_cmds_cases (env : Env) (fs : FS) :
    ∀ s ∈ (install_requirements env fs).2.spawned,
      s.cmd = obtener_pip_venv env.isWin ++ ["install", "pip-tools"] ∨
      s.cmd = compile_command_of env (verify_and_install_pip_compile env fs).2.1 ∨
      s.cmd = install_command_of env := by
  intro s hs
  cases hd : fs.isDir VENV_DIR
  · simp [install_requirements, hd] at hs
  · cases h1 : (verify_and_install_pip_compile env fs).1
    · have hv : (install_requirements env fs).2.spawned =
          (verify_and_install_pip_compile env fs).2.2.spawned := by
        simp [install_requirements, hd, h1]
      rw [hv] at hs
      rcases verify_spawned_cases env fs with hcase | hcase <;> rw [hcase] at hs
      · simp at hs
      · simp at hs
        simp [hs]
    · cases h2 : (ejecutar_comando env
          (compile_command_of env (verify_and_install_pip_compile env fs).2.1)
          msg_compile_ok msg_compile_fail (verify_and_install_pip_compile env fs).2.1).1
      · rw [install_requirements_compile_fail env fs hd h1 h2] at hs
        rcases List.mem_append.mp hs with hmem | hmem
        · rcases verify_spawned_cases env fs with hcase | hcase <;> rw [hcase] at hmem
          · simp at hmem
          · simp at hmem
            simp [hmem]
        · simp at hmem
          simp [hmem]
      · cases hl : (ejecutar_comando env
            (compile_command_of env (verify_and_install_pip_compile env fs).2.1)
            msg_compile_ok msg_compile_fail
            (verify_and_install_pip_compile env fs).2.1).2.1.pathExists "requirements.txt"
        · rw [(install_requirements_ok_nolock env fs hd h1 h2 hl).1] at hs
          rcases List.mem_append.mp hs with hmem | hmem
          · rcases verify_spawned_cases env fs with hcase | hcase <;> rw [hcase] at hmem
            · simp at hmem
            · simp at hmem
              simp [hmem]
          · simp at hmem
            simp [hmem]
        · rw [install_requirements_ok_withlock env fs hd h1 h2 hl] at hs
          rcases List.mem_append.mp hs with hmem | hmem
          · rcases verify_spawned_cases env fs with hcase | hcase <;> rw [hcase] at hmem
            · simp at hmem
            · simp at hmem
              simp [hmem]
          · simp at hmem
            rcases hmem with hmem | hmem <;> simp [hmem]

/-- C10: pip commands always go through the venv interpreter: the base
pip command is the venv interpreter running pip as a module, and every
process either flow spawns is the venv-creation command, a command whose
first three tokens are exactly that base pip command (the toolchain
upgrade, the pip-tools installation and the lock-file installation), or
one of the two compile-command shapes; no spawned command invokes a
system-wide pip. -/
theorem C10_pip_always_via_venv_python (env : Env) (fs fs2 : FS) :
    obtener_pip_venv env.isWin = [obtener_python_venv env.isWin, "-m", "pip"] ∧
    ∀ s ∈ (create_virtual_environment env fs).2.2.spawned ++
        (install_requirements env fs2).2.spawned,
      s.cmd = [env.sys_executable, "-m", "venv", VENV_DIR] ∨
      s.cmd.take 3 = [obtener_python_venv env.isWin, "-m", "pip"] ∨
      s.cmd = [pip_compile_venv_path env.isWin, "requirements.in"] ∨
      s.cmd = [obtener_python_venv env.isWin, "-m", "piptools", "compile", "requirements.in"] := by
  refine ⟨rfl, ?_⟩
  intro s hs
  rcases List.mem_append.mp hs with hmem | hmem
  · rcases create_spawned_cmds_cases env fs s hmem with hc | hc
    · left
      exact hc
    · right; left
      simp [hc, obtener_pip_venv]
  · rcases install_spawned_cmds_cases env fs2 s hmem with hc | hc | hc
    · right; left
      simp [hc, obtener_pip_venv]
    · rw [hc]
      cases hp : (verify_and_install_pip_compile env fs2).2.1.pathExists
          (pip_compile_venv_path env.isWin)
      · right; right; right
        simp [compile_command_of, hp]
      · right; right; left
        simp [compile_command_of, hp]
    · right; left
      simp [hc, install_command_of, obtener_pip_venv]

/-- C10 witness: the venv-creation spawn of a concrete world satisfies
the disjunction (it is the creation command itself). -/
theorem C10_pip_always_via_venv_python_witness :
    (Spawn.mk ["/usr/bin/python3", "-m", "venv", ".venv"] true true true 120).cmd =
        ["/usr/bin/python3", "-m", "venv", VENV_DIR] ∨
    (Spawn.mk ["/usr/bin/python3", "-m", "venv", ".venv"] true true true 120).cmd.take 3 =
        [obtener_python_venv false, "-m", "pip"] ∨
    (Spawn.mk ["/usr/bin/python3", "-m", "venv", ".venv"] true true true 120).cmd =
        [pip_compile_venv_path false, "requirements.in"] ∨
    (Spawn.mk ["/usr/bin/python3", "-m", "venv", ".venv"] true true true 120).cmd =
        [obtener_python_venv false, "-m", "piptools", "compile", "requirements.in"] :=
  (C10_pip_always_via_venv_python envAllOk fsEmpty fsReqTxt).2
    (Spawn.mk ["/usr/bin/python3", "-m", "venv", ".venv"] true true true 120) (by decide)

end SetupAssistant
